import Mathlib

/-!
Shallow embedding of the procedural terrain and texture synthesis kernel of
src/public/models/observatory_island_authentic.py (class
ObservatoryIslandGenerator), over the reals.  Machine floats are modelled as
real numbers; the global random source of the texture synthesis is modelled
as an explicit stream of real values consumed in raster-scan order
through an explicit index.
-/

noncomputable section

open Real

/-- TerrainParameters: the dictionary built by ObservatoryIslandGenerator.__init__
(source lines 20-28). -/
structure TerrainParams where
  hill_height : ℝ
  hill_radius : ℝ
  island_radius : ℝ
  edge_height : ℝ
  edge_falloff : ℝ
  waterfall_start : ℝ
  base_ground_level : ℝ

/-- The fixed parameter values assigned by __init__ (source lines 20-28). -/
def default_terrain_params : TerrainParams :=
  ⟨15, 100, 220, 8, 30, 210, -5⟩

/-- Error type for the configuration-validation design described by the spec.
The source constructor contains no raise statement, so no construction ever
produces one of these. -/
inductive ConfigError where
  | configurationError : ConfigError
  | degenerateConfigurationError : ConfigError
deriving DecidableEq

/-- The constructor __init__ (source lines 18-28): it assigns the parameter
dictionary and performs no validation.  Parametrized here by the stored record
so that arbitrary configurations can be submitted to it; the body has no
check and no error path, so it returns the parameters unconditionally. -/
def generator_init_with (p : TerrainParams) : Except ConfigError TerrainParams :=
  Except.ok p

/-- The constructor exactly as in the source: nullary, producing the fixed
parameter set, never an error. -/
def generator_init : Except ConfigError TerrainParams :=
  generator_init_with default_terrain_params

/-- One entry of the fixed octave table of get_surface_noise
(source lines 106-112). -/
structure NoiseOctave where
  freq : ℝ
  amp : ℝ
  angle_x : ℝ
  angle_z : ℝ
  phase_x : ℝ
  phase_z : ℝ

/-- The fixed 5-octave table (source lines 106-112). -/
def octaves : List NoiseOctave :=
  [⟨0.08, 0.25, π / 7.3, π / 3.7, 2.1, 5.8⟩,
   ⟨0.15, 0.15, π / 2.8, π / 5.2, 1.7, 3.4⟩,
   ⟨0.32, 0.08, π / 4.1, π / 6.9, 4.2, 1.9⟩,
   ⟨0.67, 0.04, π / 1.9, π / 8.3, 0.9, 6.1⟩,
   ⟨1.23, 0.02, π / 3.4, π / 2.1, 3.8, 2.7⟩]

/-- The contribution of one octave before the amplitude weighting
(source lines 116-122): rotate x and z by two different angles, add the
phase offsets, scale by the frequency, and take sin times cos. -/
def octave_noise (x z : ℝ) (o : NoiseOctave) : ℝ :=
  let x1 := x * Real.cos o.angle_x - z * Real.sin o.angle_x
  let z1 := x * Real.sin o.angle_z + z * Real.cos o.angle_z
  Real.sin ((x1 + o.phase_x) * o.freq) * Real.cos ((z1 + o.phase_z) * o.freq)

/-- get_surface_noise (source lines 104-125): the amplitude-weighted sum of
the five octave contributions. -/
def get_surface_noise (x z : ℝ) : ℝ :=
  (octaves.map (fun o => octave_noise x z o * o.amp)).sum

/-- The noise-free part of calculate_terrain_height as a function of the
radial distance from the center (source lines 79-97): the raised-cosine
dome inside hill_radius, the flat shelf at base_ground_level outside it,
overridden by the quadratic void falloff at and beyond island_radius. -/
def noise_free_height (p : TerrainParams) (d : ℝ) : ℝ :=
  let height :=
    if d < p.hill_radius then
      let height_multiplier := Real.cos (d / p.hill_radius * π * 0.5)
      p.base_ground_level + p.hill_height * height_multiplier * height_multiplier
    else p.base_ground_level
  if p.island_radius ≤ d then
    p.base_ground_level - ((d - p.island_radius) * 0.1) ^ 2
  else height

/-- calculate_terrain_height (source lines 77-102): the branch structure on
the distance from center, plus the surface noise added unconditionally. -/
def calculate_terrain_height (p : TerrainParams) (x z : ℝ) : ℝ :=
  let distance_from_center := Real.sqrt (x * x + z * z)
  noise_free_height p distance_from_center + get_surface_noise x z

/-- An RGBA color: four real channels, as built by the per-pixel code of
create_detailed_terrain_texture. -/
structure RGBA where
  r : ℝ
  g : ℝ
  b : ℝ
  a : ℝ

/-- lerp_color (source lines 316-323): channel-wise linear interpolation,
alpha fixed at 1.0. -/
def lerp_color (c1 c2 : RGBA) (t : ℝ) : RGBA :=
  ⟨c1.r + (c2.r - c1.r) * t,
   c1.g + (c2.g - c1.g) * t,
   c1.b + (c2.b - c1.b) * t,
   1.0⟩

/-- The grass-center color of the gradient table (source line 222). -/
def grass_center : RGBA := ⟨0.239, 0.376, 0.090, 1.0⟩

/-- The medium-green color of the gradient table (source line 228). -/
def medium_green : RGBA := ⟨0.176, 0.314, 0.090, 1.0⟩

/-- The sandy-beach color of the gradient table (source line 236). -/
def sandy_beach : RGBA := ⟨0.761, 0.698, 0.502, 1.0⟩

/-- The darker-sand color of the gradient table (source line 244). -/
def darker_sand : RGBA := ⟨0.631, 0.565, 0.376, 1.0⟩

/-- The wet-sand edge color of the gradient table (source line 252). -/
def wet_sand : RGBA := ⟨0.545, 0.451, 0.333, 1.0⟩

/-- The base radial gradient of create_detailed_terrain_texture as a function
of the normalized distance from center (source lines 221-254): the five-band
if chain with linear interpolation inside each band. -/
def gradient_color (u : ℝ) : RGBA :=
  if u ≤ 0.0 then grass_center
  else if u ≤ 0.4 then lerp_color grass_center medium_green (u / 0.4)
  else if u ≤ 0.7 then lerp_color medium_green sandy_beach ((u - 0.4) / 0.3)
  else if u ≤ 0.85 then lerp_color sandy_beach darker_sand ((u - 0.7) / 0.15)
  else lerp_color darker_sand wet_sand ((u - 0.85) / 0.15)

/-- The distance of pixel (x, y) from the image center (512, 512) of the
1024x1024 raster (source lines 211, 217). -/
def pixel_dist (x y : ℕ) : ℝ :=
  Real.sqrt (((x : ℝ) - 512) ^ 2 + ((y : ℝ) - 512) ^ 2)

/-- max_radius = min(center_x, center_y) * 0.98 with both centers 512
(source line 212). -/
def max_radius : ℝ := 512 * 0.98

/-- The grass detail step (source lines 256-268), threading the random
stream index.  Inside the region d < 1024 * 0.4 it always draws the unused
grass_noise value and the firing test; when the test fires it draws the
brightness and brightens the channels with asymmetric weights, capped at 1. -/
def grass_detail (rand : ℕ → ℝ) (k : ℕ) (d : ℝ) (c : RGBA) : RGBA × ℕ :=
  if d < 1024 * 0.4 then
    if rand (k + 1) < 0.002 then
      let grass_brightness := rand (k + 2) * 0.4 + 0.2
      (⟨min 1.0 (c.r + grass_brightness * 0.3),
        min 1.0 (c.g + grass_brightness * 0.5),
        min 1.0 (c.b + grass_brightness * 0.2),
        1.0⟩, k + 3)
    else (c, k + 2)
  else (c, k)

/-- The sand detail step (source lines 270-280): active where
d > 1024 * 0.3, drawing the firing test and, when it fires, a brightness
with its own channel weights, capped at 1. -/
def sand_detail (rand : ℕ → ℝ) (k : ℕ) (d : ℝ) (c : RGBA) : RGBA × ℕ :=
  if 1024 * 0.3 < d then
    if rand k < 0.001 then
      let sand_brightness := rand (k + 1) * 0.3 + 0.3
      (⟨min 1.0 (c.r + sand_brightness * 0.4),
        min 1.0 (c.g + sand_brightness * 0.3),
        min 1.0 (c.b + sand_brightness * 0.2),
        1.0⟩, k + 2)
    else (c, k + 1)
  else (c, k)

/-- The final noise overlay (source lines 282-289): one uniform draw mapped
to an offset in [-0.04, 0.04), added to the three color channels, each then
clamped to [0, 1]; alpha set to exactly 1.0. -/
def noise_overlay (rand : ℕ → ℝ) (k : ℕ) (c : RGBA) : RGBA × ℕ :=
  let noise := (rand k - 0.5) * 0.08
  (⟨max 0.0 (min 1.0 (c.r + noise)),
    max 0.0 (min 1.0 (c.g + noise)),
    max 0.0 (min 1.0 (c.b + noise)),
    1.0⟩, k + 1)

/-- The full per-pixel computation of create_detailed_terrain_texture
(source lines 214-291): base gradient color from the normalized distance,
grass detail, sand detail, then the noise overlay, threading the random
stream index in the order the source consumes draws. -/
def texture_pixel (rand : ℕ → ℝ) (k : ℕ) (x y : ℕ) : RGBA × ℕ :=
  let d := pixel_dist x y
  let c0 := gradient_color (d / max_radius)
  let g := grass_detail rand k d c0
  let s := sand_detail rand g.2 d g.1
  noise_overlay rand s.2 s.1

/-- The flat channel-interleaved pixel buffer over a list of (row, column)
coordinates, threading the random index from pixel to pixel (source
lines 209-291 accumulate pixels.extend(final_color)). -/
def synth_pixels (rand : ℕ → ℝ) : List (ℕ × ℕ) → ℕ → List ℝ
  | [], _ => []
  | (y, x) :: rest, k =>
      let ck := texture_pixel rand k x y
      ck.1.r :: ck.1.g :: ck.1.b :: ck.1.a :: synth_pixels rand rest ck.2

/-- The raster-scan coordinate order of the two nested loops
(source lines 214-215): for y in range(1024), for x in range(1024). -/
def texture_coords : List (ℕ × ℕ) :=
  (List.range 1024).flatMap fun y => (List.range 1024).map fun x => (y, x)

/-- create_detailed_terrain_texture (source lines 200-297) restricted to its
numeric content: the 1024x1024 flat RGBA pixel buffer produced from the
given random stream, consumed sequentially from index 0. -/
def create_detailed_terrain_texture (rand : ℕ → ℝ) : List ℝ :=
  synth_pixels rand texture_coords 0

theorem calculate_terrain_height_decomp (p : TerrainParams) (x z : ℝ) :
    calculate_terrain_height p x z =
      noise_free_height p (Real.sqrt (x * x + z * z)) + get_surface_noise x z := rfl

theorem octave_noise_abs_le (x z : ℝ) (o : NoiseOctave) : |octave_noise x z o| ≤ 1 := by
  unfold octave_noise
  rw [abs_mul]
  exact mul_le_one₀ (Real.abs_sin_le_one _) (abs_nonneg _) (Real.abs_cos_le_one _)

/-- C4: for every input (x, z), the surface noise is bounded in magnitude by
0.54, the sum of the five octave amplitudes 0.25+0.15+0.08+0.04+0.02; the
bound comes from each octave term being a sine times a cosine, not from any
clamp in the code. -/
theorem surface_noise_bound (x z : ℝ) : |get_surface_noise x z| ≤ 0.54 := by
  obtain ⟨l1, u1⟩ := abs_le.mp (octave_noise_abs_le x z ⟨0.08, 0.25, π / 7.3, π / 3.7, 2.1, 5.8⟩)
  obtain ⟨l2, u2⟩ := abs_le.mp (octave_noise_abs_le x z ⟨0.15, 0.15, π / 2.8, π / 5.2, 1.7, 3.4⟩)
  obtain ⟨l3, u3⟩ := abs_le.mp (octave_noise_abs_le x z ⟨0.32, 0.08, π / 4.1, π / 6.9, 4.2, 1.9⟩)
  obtain ⟨l4, u4⟩ := abs_le.mp (octave_noise_abs_le x z ⟨0.67, 0.04, π / 1.9, π / 8.3, 0.9, 6.1⟩)
  obtain ⟨l5, u5⟩ := abs_le.mp (octave_noise_abs_le x z ⟨1.23, 0.02, π / 3.4, π / 2.1, 3.8, 2.7⟩)
  rw [get_surface_noise, octaves]
  simp only [List.map_cons, List.map_nil, List.sum_cons, List.sum_nil]
  rw [abs_le]
  constructor <;> nlinarith

/-- C3: with the default terrain parameters (hillHeight 15, hillRadius 100,
islandRadius 220, baseGroundLevel -5), the height is 10 plus noise at the
dome peak (0,0), -5 plus noise on the flat shelf at (150,0), and -69 plus
noise in the void at (300,0), where the drop is ((300-220)*0.1)^2 = 64. -/
theorem terrain_height_scenarios :
    calculate_terrain_height default_terrain_params 0 0 = 10 + get_surface_noise 0 0 ∧
    calculate_terrain_height default_terrain_params 150 0 = -5 + get_surface_noise 150 0 ∧
    calculate_terrain_height default_terrain_params 300 0 = -69 + get_surface_noise 300 0 := by
  refine ⟨?_, ?_, ?_⟩
  · rw [calculate_terrain_height_decomp]
    have hs : Real.sqrt ((0 : ℝ) * 0 + 0 * 0) = 0 := by
      norm_num
    rw [hs]
    simp only [noise_free_height, default_terrain_params]
    norm_num [Real.cos_zero]
  · rw [calculate_terrain_height_decomp]
    have hs : Real.sqrt ((150 : ℝ) * 150 + 0 * 0) = 150 := by
      rw [show (150 : ℝ) * 150 + 0 * 0 = 150 ^ 2 by norm_num]
      exact Real.sqrt_sq (by norm_num)
    rw [hs]
    simp only [noise_free_height, default_terrain_params]
    norm_num
  · rw [calculate_terrain_height_decomp]
    have hs : Real.sqrt ((300 : ℝ) * 300 + 0 * 0) = 300 := by
      rw [show (300 : ℝ) * 300 + 0 * 0 = 300 ^ 2 by norm_num]
      exact Real.sqrt_sq (by norm_num)
    rw [hs]
    simp only [noise_free_height, default_terrain_params]
    norm_num

/-- C5: the noise-free part of the height field is a function of the radial
distance alone: two inputs at equal squared distance from the origin give
equal height minus noise, for every parameter record. -/
theorem height_minus_noise_radial (p : TerrainParams) (x1 z1 x2 z2 : ℝ)
    (h : x1 * x1 + z1 * z1 = x2 * x2 + z2 * z2) :
    calculate_terrain_height p x1 z1 - get_surface_noise x1 z1 =
      calculate_terrain_height p x2 z2 - get_surface_noise x2 z2 := by
  rw [calculate_terrain_height_decomp, calculate_terrain_height_decomp, h]
  ring

theorem height_minus_noise_radial_witness :
    calculate_terrain_height default_terrain_params 3 4 - get_surface_noise 3 4 =
      calculate_terrain_height default_terrain_params 5 0 - get_surface_noise 5 0 :=
  height_minus_noise_radial default_terrain_params 3 4 5 0 (by norm_num)

/-- C6: the noise-free height equals baseGroundLevel at d = islandRadius
exactly (continuous with the flat shelf, which also sits at baseGroundLevel),
and is strictly decreasing and unbounded below beyond the island edge. -/
theorem noise_free_height_seam_monotone (p : TerrainParams) :
    noise_free_height p p.island_radius = p.base_ground_level ∧
    (∀ d, p.hill_radius ≤ d → d < p.island_radius →
      noise_free_height p d = p.base_ground_level) ∧
    (∀ d1 d2, p.island_radius ≤ d1 → d1 < d2 →
      noise_free_height p d2 < noise_free_height p d1) ∧
    (∀ M : ℝ, ∃ d, noise_free_height p d < M) := by
  refine ⟨?_, ?_, ?_, ?_⟩
  · simp only [noise_free_height]
    rw [if_pos le_rfl]
    norm_num
  · intro d hd1 hd2
    simp only [noise_free_height]
    rw [if_neg (not_le.mpr hd2), if_neg (not_lt.mpr hd1)]
  · intro d1 d2 h1 h2
    simp only [noise_free_height]
    rw [if_pos (le_trans h1 h2.le), if_pos h1]
    have h0 : 0 ≤ d1 - p.island_radius := by linarith
    have hk : d1 - p.island_radius < d2 - p.island_radius := by linarith
    nlinarith [mul_self_lt_mul_self h0 hk]
  · intro M
    refine ⟨p.island_radius + 10 * (|p.base_ground_level - M| + 1), ?_⟩
    have ht : 0 ≤ |p.base_ground_level - M| := abs_nonneg _
    have h1 : p.base_ground_level - M ≤ |p.base_ground_level - M| := le_abs_self _
    simp only [noise_free_height]
    rw [if_pos (by linarith)]
    nlinarith [sq_nonneg (|p.base_ground_level - M|)]

theorem noise_free_height_seam_monotone_witness :
    noise_free_height default_terrain_params default_terrain_params.island_radius =
      default_terrain_params.base_ground_level ∧
    noise_free_height default_terrain_params 150 = default_terrain_params.base_ground_level ∧
    noise_free_height default_terrain_params 230 < noise_free_height default_terrain_params 220 ∧
    ∃ d, noise_free_height default_terrain_params d < -1000000 :=
  ⟨(noise_free_height_seam_monotone default_terrain_params).1,
   (noise_free_height_seam_monotone default_terrain_params).2.1 150
     (by norm_num [default_terrain_params]) (by norm_num [default_terrain_params]),
   (noise_free_height_seam_monotone default_terrain_params).2.2.1 220 230
     (by norm_num [default_terrain_params]) (by norm_num),
   (noise_free_height_seam_monotone default_terrain_params).2.2.2 (-1000000)⟩

/-- C10: with hillRadius = 0, the guard distance < hillRadius of the only
division in the height function is unsatisfiable (a square root is
nonnegative), so the height is total and equals the flat shelf or the void
falloff plus noise, with no division by zero reached. -/
theorem terrain_height_total_zero_hill_radius (p : TerrainParams) (x z : ℝ)
    (h : p.hill_radius = 0) :
    ¬ (Real.sqrt (x * x + z * z) < p.hill_radius) ∧
    calculate_terrain_height p x z =
      (if p.island_radius ≤ Real.sqrt (x * x + z * z) then
         p.base_ground_level - ((Real.sqrt (x * x + z * z) - p.island_radius) * 0.1) ^ 2
       else p.base_ground_level) + get_surface_noise x z := by
  have hnn : 0 ≤ Real.sqrt (x * x + z * z) := Real.sqrt_nonneg _
  have hng : ¬ (Real.sqrt (x * x + z * z) < p.hill_radius) := by
    rw [h]; exact not_lt.mpr hnn
  refine ⟨hng, ?_⟩
  rw [calculate_terrain_height_decomp]
  congr 1
  simp only [noise_free_height]
  rw [if_neg hng]

theorem noise_overlay_range (rand : ℕ → ℝ) (k : ℕ) (c : RGBA) :
    (0 ≤ (noise_overlay rand k c).1.r ∧ (noise_overlay rand k c).1.r ≤ 1) ∧
    (0 ≤ (noise_overlay rand k c).1.g ∧ (noise_overlay rand k c).1.g ≤ 1) ∧
    (0 ≤ (noise_overlay rand k c).1.b ∧ (noise_overlay rand k c).1.b ≤ 1) ∧
    (noise_overlay rand k c).1.a = 1 := by
  simp only [noise_overlay]
  refine ⟨⟨le_max_of_le_left (by norm_num),
           max_le (by norm_num) ((min_le_left _ _).trans (by norm_num))⟩,
          ⟨le_max_of_le_left (by norm_num),
           max_le (by norm_num) ((min_le_left _ _).trans (by norm_num))⟩,
          ⟨le_max_of_le_left (by norm_num),
           max_le (by norm_num) ((min_le_left _ _).trans (by norm_num))⟩, by norm_num⟩

/-- C7: for every random stream and every pixel coordinate (corner pixels
included), the pixel produced by the per-pixel texture pipeline has each of
red, green and blue in [0, 1] after the final dither and clamp, and alpha
exactly 1.0. -/
theorem texture_pixel_channels_in_range (rand : ℕ → ℝ) (k : ℕ) (x y : ℕ) :
    (0 ≤ (texture_pixel rand k x y).1.r ∧ (texture_pixel rand k x y).1.r ≤ 1) ∧
    (0 ≤ (texture_pixel rand k x y).1.g ∧ (texture_pixel rand k x y).1.g ≤ 1) ∧
    (0 ≤ (texture_pixel rand k x y).1.b ∧ (texture_pixel rand k x y).1.b ≤ 1) ∧
    (texture_pixel rand k x y).1.a = 1 := by
  simp only [texture_pixel]
  exact noise_overlay_range rand _ _

/-- C9: the texture buffer is a function of the random stream alone; two
invocations fed pointwise-equal streams produce identical pixel buffers. -/
theorem texture_determinism (s1 s2 : ℕ → ℝ) (h : ∀ n, s1 n = s2 n) :
    create_detailed_terrain_texture s1 = create_detailed_terrain_texture s2 := by
  rw [funext h]

theorem texture_determinism_witness :
    create_detailed_terrain_texture (fun _ => 0) = create_detailed_terrain_texture (fun _ => 0) :=
  texture_determinism (fun _ => 0) (fun _ => 0) (fun _ => rfl)

/-- C1 counterexample: at normalized distance 2 the gradient color differs
from the wet-sand color, so the zone color is not clamped at and beyond 1.0. -/
theorem zone_color_above_one_not_clamped_cex : gradient_color 2 ≠ wet_sand := by
  simp only [gradient_color, lerp_color, grass_center, medium_green, sandy_beach,
    darker_sand, wet_sand]
  rw [if_neg (by norm_num), if_neg (by norm_num), if_neg (by norm_num),
    if_neg (by norm_num)]
  rw [ne_eq, RGBA.mk.injEq]
  norm_num

/-- C1 amended: at u = 1.0 exactly the gradient color equals the wet-sand
color, but for every u above the last breakpoint 0.85 the last band keeps
interpolating linearly, so for u above 1.0 the color is extrapolated beyond
wet-sand rather than clamped. -/
theorem zone_color_above_one_extrapolates :
    gradient_color 1 = wet_sand ∧
    ∀ u : ℝ, 0.85 < u →
      gradient_color u = lerp_color darker_sand wet_sand ((u - 0.85) / 0.15) := by
  constructor
  · simp only [gradient_color]
    rw [if_neg (by norm_num), if_neg (by norm_num), if_neg (by norm_num),
      if_neg (by norm_num)]
    simp only [lerp_color, darker_sand, wet_sand]
    norm_num
  · intro u hu
    simp only [gradient_color]
    rw [if_neg (not_le.mpr (by linarith)), if_neg (not_le.mpr (by linarith)),
      if_neg (not_le.mpr (by linarith)), if_neg (not_le.mpr hu)]

theorem zone_color_above_one_extrapolates_witness :
    gradient_color 1 = wet_sand ∧
    gradient_color 2 = lerp_color darker_sand wet_sand ((2 - 0.85) / 0.15) :=
  ⟨zone_color_above_one_extrapolates.1,
   zone_color_above_one_extrapolates.2 2 (by norm_num)⟩

/-- C8: grass detail leaves the color unchanged at distances at or beyond
0.4 * 1024; sand detail leaves it unchanged at or below 0.3 * 1024; when no
firing test passes, the pixel is exactly the base gradient color followed by
the dither overlay; and in the overlap band (0.3 * 1024, 0.4 * 1024) one
stream can make both detail types modify the base color. -/
theorem texture_detail_zones :
    (∀ (rand : ℕ → ℝ) (k : ℕ) (d : ℝ) (c : RGBA),
      1024 * 0.4 ≤ d → grass_detail rand k d c = (c, k)) ∧
    (∀ (rand : ℕ → ℝ) (k : ℕ) (d : ℝ) (c : RGBA),
      d ≤ 1024 * 0.3 → sand_detail rand k d c = (c, k)) ∧
    (∀ (rand : ℕ → ℝ) (k : ℕ) (x y : ℕ),
      0.002 ≤ rand k → 0.002 ≤ rand (k + 1) → 0.002 ≤ rand (k + 2) →
      ∃ m, texture_pixel rand k x y =
        noise_overlay rand m (gradient_color (pixel_dist x y / max_radius))) ∧
    (∃ (rand : ℕ → ℝ) (k : ℕ) (d : ℝ),
      1024 * 0.3 < d ∧ d < 1024 * 0.4 ∧
      (grass_detail rand k d (gradient_color (d / max_radius))).1 ≠
        gradient_color (d / max_radius) ∧
      (sand_detail rand k d (gradient_color (d / max_radius))).1 ≠
        gradient_color (d / max_radius)) := by
  refine ⟨?_, ?_, ?_, ?_⟩
  · intro rand k d c h
    simp only [grass_detail]
    rw [if_neg (not_lt.mpr h)]
  · intro rand k d c h
    simp only [sand_detail]
    rw [if_neg (not_lt.mpr h)]
  · intro rand k x y h0 h1 h2
    by_cases hg : pixel_dist x y < 1024 * 0.4
    · have hG : grass_detail rand k (pixel_dist x y)
          (gradient_color (pixel_dist x y / max_radius)) =
          (gradient_color (pixel_dist x y / max_radius), k + 2) := by
        simp only [grass_detail]
        rw [if_pos hg, if_neg (not_lt.mpr h1)]
      by_cases hs : 1024 * 0.3 < pixel_dist x y
      · have hS : sand_detail rand (k + 2) (pixel_dist x y)
            (gradient_color (pixel_dist x y / max_radius)) =
            (gradient_color (pixel_dist x y / max_radius), k + 3) := by
          simp only [sand_detail]
          rw [if_pos hs, if_neg (not_lt.mpr ((by norm_num : (0.001 : ℝ) ≤ 0.002).trans h2))]
        exact ⟨k + 3, by simp only [texture_pixel, hG, hS]⟩
      · have hS : sand_detail rand (k + 2) (pixel_dist x y)
            (gradient_color (pixel_dist x y / max_radius)) =
            (gradient_color (pixel_dist x y / max_radius), k + 2) := by
          simp only [sand_detail]
          rw [if_neg hs]
        exact ⟨k + 2, by simp only [texture_pixel, hG, hS]⟩
    · have hG : grass_detail rand k (pixel_dist x y)
          (gradient_color (pixel_dist x y / max_radius)) =
          (gradient_color (pixel_dist x y / max_radius), k) := by
        simp only [grass_detail]
        rw [if_neg hg]
      by_cases hs : 1024 * 0.3 < pixel_dist x y
      · have hS : sand_detail rand k (pixel_dist x y)
            (gradient_color (pixel_dist x y / max_radius)) =
            (gradient_color (pixel_dist x y / max_radius), k + 1) := by
          simp only [sand_detail]
          rw [if_pos hs, if_neg (not_lt.mpr ((by norm_num : (0.001 : ℝ) ≤ 0.002).trans h0))]
        exact ⟨k + 1, by simp only [texture_pixel, hG, hS]⟩
      · have hS : sand_detail rand k (pixel_dist x y)
            (gradient_color (pixel_dist x y / max_radius)) =
            (gradient_color (pixel_dist x y / max_radius), k) := by
          simp only [sand_detail]
          rw [if_neg hs]
        exact ⟨k, by simp only [texture_pixel, hG, hS]⟩
  · have hc : gradient_color (350 / max_radius) =
        ⟨0.176 + (0.761 - 0.176) * ((350 / max_radius - 0.4) / 0.3),
         0.314 + (0.698 - 0.314) * ((350 / max_radius - 0.4) / 0.3),
         0.090 + (0.502 - 0.090) * ((350 / max_radius - 0.4) / 0.3), 1.0⟩ := by
      simp only [gradient_color, lerp_color, medium_green, sandy_beach]
      rw [if_neg (by norm_num [max_radius]), if_neg (by norm_num [max_radius]),
        if_pos (by norm_num [max_radius])]
    refine ⟨fun _ => 0, 0, 350, by norm_num, by norm_num, ?_, ?_⟩
    · rw [hc]
      simp only [grass_detail]
      split_ifs with hA hB
      · rw [ne_eq, RGBA.mk.injEq]
        norm_num [max_radius, min_def]
      · norm_num at hB
      · norm_num at hA
    · rw [hc]
      simp only [sand_detail]
      split_ifs with hA hB
      · rw [ne_eq, RGBA.mk.injEq]
        norm_num [max_radius, min_def]
      · norm_num at hB
      · norm_num at hA

theorem texture_detail_zones_witness :
    grass_detail (fun _ => 1) 0 500 grass_center = (grass_center, 0) ∧
    sand_detail (fun _ => 1) 0 100 grass_center = (grass_center, 0) ∧
    ∃ m, texture_pixel (fun _ => 1) 0 5 5 =
      noise_overlay (fun _ => 1) m (gradient_color (pixel_dist 5 5 / max_radius)) :=
  ⟨texture_detail_zones.1 (fun _ => 1) 0 500 grass_center (by norm_num),
   texture_detail_zones.2.1 (fun _ => 1) 0 100 grass_center (by norm_num),
   texture_detail_zones.2.2.1 (fun _ => 1) 0 5 5 (by norm_num) (by norm_num) (by norm_num)⟩

/-- C2 counterexample: construction with hillRadius 300 at or above
islandRadius 220 does not produce a ConfigurationError, and construction with
hillRadius 0 does not produce a DegenerateConfigurationError; the constructor
has no validation and no error path. -/
theorem generator_init_accepts_invalid_cex :
    (⟨15, 300, 220, 8, 30, 210, -5⟩ : TerrainParams).island_radius ≤
      (⟨15, 300, 220, 8, 30, 210, -5⟩ : TerrainParams).hill_radius ∧
    generator_init_with ⟨15, 300, 220, 8, 30, 210, -5⟩ ≠
      Except.error ConfigError.configurationError ∧
    (⟨15, 0, 220, 8, 30, 210, -5⟩ : TerrainParams).hill_radius = 0 ∧
    generator_init_with ⟨15, 0, 220, 8, 30, 210, -5⟩ ≠
      Except.error ConfigError.degenerateConfigurationError := by
  refine ⟨by norm_num, ?_, rfl, ?_⟩ <;> simp [generator_init_with]

/-- C2 amended: the constructor stores its parameters without any
validation and always succeeds, for degenerate configurations included; the
fixed configuration the source constructor builds does satisfy
hillRadius below islandRadius. -/
theorem generator_init_no_validation :
    (∀ p : TerrainParams, generator_init_with p = Except.ok p) ∧
    generator_init = Except.ok default_terrain_params ∧
    default_terrain_params.hill_radius < default_terrain_params.island_radius :=
  ⟨fun _ => rfl, rfl, by norm_num [default_terrain_params]⟩

theorem terrain_height_total_zero_hill_radius_witness :
    ¬ (Real.sqrt ((3 : ℝ) * 3 + 4 * 4) <
        (⟨15, 0, 220, 8, 30, 210, -5⟩ : TerrainParams).hill_radius) ∧
    calculate_terrain_height (⟨15, 0, 220, 8, 30, 210, -5⟩ : TerrainParams) 3 4 =
      (if (⟨15, 0, 220, 8, 30, 210, -5⟩ : TerrainParams).island_radius ≤
            Real.sqrt ((3 : ℝ) * 3 + 4 * 4) then
         (⟨15, 0, 220, 8, 30, 210, -5⟩ : TerrainParams).base_ground_level -
           ((Real.sqrt ((3 : ℝ) * 3 + 4 * 4) -
             (⟨15, 0, 220, 8, 30, 210, -5⟩ : TerrainParams).island_radius) * 0.1) ^ 2
       else (⟨15, 0, 220, 8, 30, 210, -5⟩ : TerrainParams).base_ground_level) +
      get_surface_noise 3 4 :=
  terrain_height_total_zero_hill_radius ⟨15, 0, 220, 8, 30, 210, -5⟩ 3 4 rfl
